import Mathlib

/-!
# ai_med_diagnosis: the server's request handlers

A shallow embedding of `server/routes/analyze.js`, `server/routes/auth.js` and
`server/models/Diagnosis.js`.  Each Express handler becomes a pure function from the
request and the store before the call to the response and the store after it.  What the
handlers obtain from libraries (the Groq client, `JSON.parse`, Mongoose schema casting,
bcrypt, jsonwebtoken) is a field of `Services` or `Crypto`, so every theorem holds for
whatever those libraries compute.
-/

namespace MedDiagnosis

/-! ## JavaScript values -/

/-- A JavaScript number as far as the handlers observe it: whether it is `0` or `-0` (the
only falsy numbers a JSON text can denote) and its decimal text. -/
structure JNum where
  isZero : Bool
  text : String

/-- JSON values: what the body of a request holds and what `JSON.parse` returns.  An object is
the list of its own properties, each key once. -/
inductive JVal where
  | null
  | bool (b : Bool)
  | num (n : JNum)
  | str (s : String)
  | arr (items : List JVal)
  | obj (fields : List (String × JVal))

/-- The 24-digit hexadecimal text of a Mongo `ObjectId`. -/
abbrev ObjectId := String

/-- JavaScript truthiness of a JSON value, as tested by `!userId` and `!symptoms`. -/
def truthy : JVal → Bool
  | .null => false
  | .bool b => b
  | .num n => !n.isZero
  | .str s => s != ""
  | .arr _ => true
  | .obj _ => true

/-- The reads `result.disease`, `result.probability`, `result.advice`, `result.medicines`:
a `TypeError` on `null`, the own property of an object (`none` is `undefined`), and
`undefined` on every other JSON value, none of which has a property of these names. -/
def getProp (v : JVal) (key : String) : Except String (Option JVal) :=
  match v with
  | .null => .error ("Cannot read properties of null (reading " ++ key ++ ")")
  | .obj fields => .ok (fields.lookup key)
  | _ => .ok none

/-! ## The Diagnosis model (`server/models/Diagnosis.js`) -/

/-- A stored document of `DiagnosisSchema`.  No path is `required`, so each may be unset;
`date` defaults to `Date.now` and is always set. -/
structure Diagnosis where
  userId : Option ObjectId
  symptoms : Option String
  predictedDisease : Option String
  confidenceScore : Option String
  advice : Option String
  medicines : Option String
  date : Nat
  deriving DecidableEq

/-! ## Responses -/

/-- What a handler sends: a string (`res.send('...')`), a JSON value (`res.json(v)`,
`res.send({...})`), a caught error object (`res.send(err)`), or the history documents. -/
inductive Body where
  | text (s : String)
  | json (v : JVal)
  | thrown (e : String)
  | docs (ds : List Diagnosis)

/-- An Express response: status code (200 unless `res.status` is called), the headers the
handler sets, and the body. -/
structure Response where
  status : Nat
  headers : List (String × String)
  body : Body

/-- The body `{ error: msg }`. -/
def errorBody (msg : String) : Body :=
  .json (.obj [("error", .str msg)])

/-! ## Library services used by `analyze.js` -/

/-- The library calls of `analyze.js` and of the Diagnosis model.
* `toStr`: JavaScript `ToString`, applied by the template literal to `symptoms`;
* `groq`: `groq.chat.completions.create` on the user message followed by the read of
  `choices[0].message.content`: the content, or the message of the error thrown;
* `jsonParse`: `JSON.parse`: the value, or the message of the `SyntaxError`;
* `castObjectId`: Mongoose's cast to `Schema.Types.ObjectId` (`none`: `CastError`);
* `castOther`: Mongoose's cast to `String` of a value that is neither `null` nor a string
  (`none`: `CastError`). -/
structure Services where
  toStr : JVal → String
  groq : String → Except String String
  jsonParse : String → Except String JVal
  castObjectId : JVal → Option ObjectId
  castOther : JVal → Option String

/-- Mongoose's cast of a value to a `String` path: `undefined` and `null` leave the path
unset, a string is kept as it is. -/
def castString (R : Services) : Option JVal → Option (Option String)
  | none => some none
  | some .null => some none
  | some (.str s) => some (some s)
  | some v => (R.castOther v).map some

/-- Lines 46-55 of `analyze.js`: the object literal reads the four properties of `result`,
`new Diagnosis` casts every path to its schema type, and `save()` rejects when a cast has
failed or the write fails (`dbUp = false`); otherwise one document is inserted. -/
def saveDiagnosis (R : Services) (dbUp : Bool) (now : Nat) (userId symptoms result : JVal)
    (store : List Diagnosis) : Except String (List Diagnosis) := do
  let disease ← getProp result "disease"
  let probability ← getProp result "probability"
  let advice ← getProp result "advice"
  let medicines ← getProp result "medicines"
  match R.castObjectId userId, castString R (some symptoms), castString R disease,
      castString R probability, castString R advice, castString R medicines with
  | some uid, some sy, some pd, some cs, some ad, some md =>
    if dbUp then
      .ok (store ++ [{ userId := some uid, symptoms := sy, predictedDisease := pd,
                       confidenceScore := cs, advice := ad, medicines := md, date := now }])
    else .error "Diagnosis save failed"
  | _, _, _, _, _, _ => .error "Diagnosis validation failed"

/-! ## `POST /api/analyze` -/

/-- The body of an analyze request; `none` is a key that is absent (`undefined`). -/
structure AnalyzeRequest where
  userId : Option JVal
  symptoms : Option JVal

/-- What the analyze handler acts on: the Diagnosis collection and the user messages sent
to the AI collaborator so far. -/
structure DiagnosisState where
  store : List Diagnosis
  aiCalls : List String

/-- The handler `router.post('/')` of `analyze.js`. -/
def analyze (R : Services) (dbUp : Bool) (now : Nat) (req : AnalyzeRequest)
    (st : DiagnosisState) : Response × DiagnosisState :=
  match req.userId, req.symptoms with
  | some userId, some symptoms =>
    if !truthy userId || !truthy symptoms then
      (⟨500, [], errorBody "Missing userId or symptoms"⟩, st)
    else
      let content := "Symptoms: " ++ R.toStr symptoms
      let st1 : DiagnosisState := { st with aiCalls := st.aiCalls ++ [content] }
      match R.groq content with
      | .error e => (⟨500, [], errorBody e⟩, st1)
      | .ok aiContent =>
        match R.jsonParse aiContent with
        | .error e => (⟨500, [], errorBody e⟩, st1)
        | .ok result =>
          let store1 :=
            match saveDiagnosis R dbUp now userId symptoms result st.store with
            | .ok s => s
            | .error _ => st.store
          (⟨200, [], .json result⟩, { st1 with store := store1 })
  | _, _ => (⟨500, [], errorBody "Missing userId or symptoms"⟩, st)

/-! ## `GET /api/analyze/history/:userId` -/

/-- The query `Diagnosis.find({ userId })`: the filter is cast to the schema type of
`userId`, and the documents whose `userId` is that ObjectId are fetched, in insertion
order; it rejects when the cast fails or the collection cannot be read. -/
def Diagnosis.find (R : Services) (dbUp : Bool) (userId : String) (store : List Diagnosis) :
    Except String (List Diagnosis) :=
  match R.castObjectId (.str userId) with
  | none => .error "Cast to ObjectId failed"
  | some oid =>
    if dbUp then .ok (store.filter (fun d => d.userId == some oid))
    else .error "Diagnosis find failed"

/-- The cursor modifier `.sort({ date: -1 })`: most recent first. -/
def sortByDateDesc (ds : List Diagnosis) : List Diagnosis :=
  ds.insertionSort (fun a b => b.date ≤ a.date)

/-- The handler `router.get('/history/:userId')` of `analyze.js`. -/
def listHistory (R : Services) (dbUp : Bool) (userId : String) (store : List Diagnosis) :
    Response :=
  match Diagnosis.find R dbUp userId store with
  | .ok found => ⟨200, [], .docs (sortByDateDesc found)⟩
  | .error _ => ⟨500, [], errorBody "Failed to fetch history"⟩

/-! ## The User model and the libraries used by `auth.js` -/

/-- Modelled from the spec: the User schema (`server/models/user.js`, required by `auth.js`,
is not among the sources).  A user record holds a unique identifier, a display name, an
email and a password hash. -/
structure User where
  _id : ObjectId
  username : String
  email : String
  password : String
  deriving DecidableEq

/-- The library calls of `auth.js`: `bcrypt.hash(password, salt)`,
`bcrypt.compare(password, hash)` and `jwt.sign({ _id }, secret)`.  A bcrypt hash is a
60-character string, so it is never empty (`hash_ne`).  `emailFilter` is what Mongoose and
MongoDB make of a query value for `email` that is neither a string nor `null` (a number, an
array, an operator object such as `{"$ne": null}`): the test a stored email has to pass, or
`none` when the value cannot be cast for the query (`CastError`). -/
structure Crypto where
  hash : String → String → String
  compare : String → String → Bool
  sign : ObjectId → String → String
  hash_ne : ∀ password salt, hash password salt ≠ ""
  emailFilter : JVal → Option (String → Bool)

/-- The query `User.findOne({ email })`: the first user whose email is the given string.
An absent email matches no record, every record having an email.  It rejects when the
collection cannot be read. -/
def User.findOne (readUp : Bool) (email : Option String) (users : List User) :
    Except String (Option User) :=
  if readUp then
    match email with
    | none => .ok none
    | some e => .ok (users.find? (fun u => u.email == e))
  else .error "User findOne failed"

/-- The query `User.findOne({ email: req.body.email })` on whatever JSON value the body
holds: a string is looked up as it is, an absent or `null` email matches no record, and any
other value is handed to the query engine unchecked, which returns the first user whose
email passes the filter it denotes. -/
def User.findOneQuery (C : Crypto) (readUp : Bool) (email : Option JVal) (users : List User) :
    Except String (Option User) :=
  match email with
  | none => User.findOne readUp none users
  | some .null => User.findOne readUp none users
  | some (.str e) => User.findOne readUp (some e) users
  | some v =>
    match C.emailFilter v with
    | none => .error "Cast to string failed"
    | some passes =>
      if readUp then .ok (users.find? (fun u => passes u.email))
      else .error "User findOne failed"

/-- Modelled from the spec: `new User({...}).save()` against the absent schema, whose
constraints the spec gives as "email and password are required non-empty strings; username
required"; `required` on a String path rejects an absent value and the empty string.  The
password path holds the hash.  It rejects on a failed validation or a failed write
(`writeUp = false`), and otherwise inserts one record with the generated `_id`. -/
def User.save (writeUp : Bool) (newId : ObjectId) (username email : Option String)
    (password : String) (users : List User) : Except String (User × List User) :=
  match username, email with
  | some n, some e =>
    if n != "" && e != "" && password != "" then
      if writeUp then
        let user : User := { _id := newId, username := n, email := e, password := password }
        .ok (user, users ++ [user])
      else .error "User save failed"
    else .error "User validation failed"
  | _, _ => .error "User validation failed"

/-! ## `POST /api/auth/register` and `POST /api/auth/login` -/

/-- The body of a register request: each field a string, or absent. -/
structure RegisterRequest where
  username : Option String
  email : Option String
  password : Option String

/-- The body of a login request: each field any JSON value, or absent (`undefined`). -/
structure LoginRequest where
  email : Option JVal
  password : Option JVal

/-- The JavaScript `typeof` of a value of the body. -/
def typeOf : Option JVal → String
  | none => "undefined"
  | some (.bool _) => "boolean"
  | some (.num _) => "number"
  | some (.str _) => "string"
  | some _ => "object"

/-- The message of the error bcryptjs throws when the password is not a string. -/
def illegalArguments : String := "Illegal arguments: undefined, string"

/-- The handler `router.post('/register')` of `auth.js`; `salt` is what `bcrypt.genSalt(10)`
yields and `newId` the identifier generated for the new document. -/
def register (C : Crypto) (readUp writeUp : Bool) (salt : String) (newId : ObjectId)
    (req : RegisterRequest) (users : List User) : Response × List User :=
  match User.findOne readUp req.email users with
  | .error err => (⟨400, [], .thrown err⟩, users)
  | .ok (some _) => (⟨400, [], .text "Email already exists"⟩, users)
  | .ok none =>
    match req.password with
    | none => (⟨400, [], .thrown illegalArguments⟩, users)
    | some password =>
      let hashedPassword := C.hash password salt
      match User.save writeUp newId req.username req.email hashedPassword users with
      | .error err => (⟨400, [], .thrown err⟩, users)
      | .ok (savedUser, users1) =>
        (⟨200, [], .json (.obj [("user", .str savedUser._id)])⟩, users1)

/-- The secret `process.env.JWT_SECRET || 'SecretKey'`. -/
def jwtSecret (env : Option String) : String :=
  match env with
  | some s => if s != "" then s else "SecretKey"
  | none => "SecretKey"

/-- The handler `router.post('/login')` of `auth.js`; `env` is `process.env.JWT_SECRET`. -/
def login (C : Crypto) (readUp : Bool) (env : Option String) (req : LoginRequest)
    (users : List User) : Response :=
  match User.findOneQuery C readUp req.email users with
  | .error err => ⟨400, [], .thrown err⟩
  | .ok none => ⟨400, [], .text "Email is not found"⟩
  | .ok (some user) =>
    match req.password with
    | some (.str password) =>
      if !C.compare password user.password then ⟨400, [], .text "Invalid password"⟩
      else
        let token := C.sign user._id (jwtSecret env)
        ⟨200, [("auth-token", token)],
          .json (.obj [("token", .str token), ("userId", .str user._id),
                       ("username", .str user.username)])⟩
    | other => ⟨400, [], .thrown ("Illegal arguments: " ++ typeOf other ++ ", string")⟩

/-! ## Stubs: concrete services for evaluating the handlers -/

/-- Whether a character is a hexadecimal digit. -/
def isHexDigit (c : Char) : Bool :=
  c.isDigit || ('a' ≤ c && c ≤ 'f') || ('A' ≤ c && c ≤ 'F')

/-- The cast to ObjectId of the stub: a string of 24 hexadecimal digits is an ObjectId, no
other value is. -/
def hexObjectId : JVal → Option ObjectId
  | .str s => if s.length == 24 && s.toList.all isHexDigit then some s else none
  | _ => none

/-- An AI collaborator stub that answers every message with `aiContent`, together with a
`JSON.parse` that yields `parsed` on that text and a `SyntaxError` on any other. -/
def stubServices (aiContent : String) (parsed : Except String JVal) : Services where
  toStr := fun v => match v with
    | .str s => s
    | _ => "[object Object]"
  groq := fun _ => .ok aiContent
  jsonParse := fun s => if s == aiContent then parsed else .error "Unexpected token"
  castObjectId := hexObjectId
  castOther := fun _ => none

/-- The text the stub of the spec's example returns. -/
def coldText : String :=
  "\x7b\"disease\":\"Common Cold\",\"probability\":\"85%\",\"advice\":\"Rest and hydrate\",\"medicines\":\"Paracetamol, Cetirizine\"\x7d"

/-- The object `coldText` denotes. -/
def coldResult : JVal :=
  .obj [("disease", .str "Common Cold"), ("probability", .str "85%"),
        ("advice", .str "Rest and hydrate"), ("medicines", .str "Paracetamol, Cetirizine")]

/-- The stub of the spec's example: a working AI collaborator returning `coldText`. -/
def coldServices : Services := stubServices coldText (.ok coldResult)

/-- The query values the stub evaluates, as MongoDB does: `{"$ne": null}` is passed by every
stored email and `{"$ne": s}` by every email other than `s`; any other value fails the
cast. -/
def stubFilter : JVal → Option (String → Bool)
  | .obj [(op, .null)] => if op == "$ne" then some (fun _ => true) else none
  | .obj [(op, .str s)] => if op == "$ne" then some (fun e => e != s) else none
  | _ => none

/-- A bcrypt stand-in: the hash is the salt followed by `$` and the password, and a
password verifies against a hash that ends in `$` and that password. -/
def stubCrypto : Crypto where
  hash := fun password salt => salt ++ "$" ++ password
  compare := fun password h => ("$" ++ password).toList.isSuffixOf h.toList
  sign := fun id secret => "jwt." ++ id ++ "." ++ secret
  emailFilter := stubFilter
  hash_ne := by
    intro password salt h
    have hlen := congrArg String.length h
    simp only [String.length_append] at hlen
    have hone : "$".length = 1 := rfl
    have hzero : "".length = 0 := rfl
    omega

/-- A credential store with one user, whose password is `hunter2`. -/
def oneUser : List User :=
  [⟨"64b000000000000000000001", "alice", "alice@example.com", "s1$hunter2"⟩]

/-- A call of the Auth Service, with what the environment contributes to it: whether the
store can be read and written, the salt and the identifier generated, and the configured
`JWT_SECRET`. -/
inductive AuthCall where
  | register (readUp writeUp : Bool) (salt : String) (newId : ObjectId)
      (req : RegisterRequest)
  | login (readUp : Bool) (env : Option String) (req : LoginRequest)

/-- The Credential Store after one call: `register` may insert a record, `login` only
reads. -/
def authStep (C : Crypto) (users : List User) : AuthCall → List User
  | .register readUp writeUp salt newId req => (register C readUp writeUp salt newId req users).2
  | .login _ _ _ => users

/-- The Credential Store after a sequence of calls executed one after the other. -/
def runAuth (C : Crypto) (users : List User) (calls : List AuthCall) : List User :=
  calls.foldl (authStep C) users

/-- Email uniqueness: no two user records have the same email. -/
def uniqueEmails (users : List User) : Prop :=
  users.Pairwise (fun a b => a.email ≠ b.email)

/-- The token a login response carries in its body, if any. -/
def bodyToken : Body → Option JVal
  | .json (.obj fields) => fields.lookup "token"
  | _ => none

/-- Whether a response carries a token, in its body or in the `auth-token` header. -/
def issuedToken (r : Response) : Bool :=
  (r.headers.lookup "auth-token").isSome || (bodyToken r.body).isSome

/-- The empty state: no diagnosis stored, no AI call made. -/
def emptyState : DiagnosisState := { store := [], aiCalls := [] }

/-- A request field that is missing or empty: `undefined`, `null` or the empty string. -/
def missingOrEmpty : Option JVal → Bool
  | none => true
  | some .null => true
  | some (.str s) => s == ""
  | some _ => false

instance (users : List User) : Decidable (uniqueEmails users) :=
  inferInstanceAs (Decidable (users.Pairwise (fun (a b : User) => a.email ≠ b.email)))

/-- A store with two records of one user, created at times 3 and 9, and one record of
another user. -/
def sampleStore : List Diagnosis :=
  [⟨some "507f1f77bcf86cd799439011", some "cough", some "Common Cold", some "85%",
    none, none, 3⟩,
   ⟨some "aaaaaaaaaaaaaaaaaaaaaaaa", some "rash", some "Allergy", none, none, none, 4⟩,
   ⟨some "507f1f77bcf86cd799439011", some "fever", some "Flu", some "70%", none, none, 9⟩]

/-- A call of the Diagnosis Service, with what the environment contributes to it: whether
the store can be reached and, for analyze, the time of the call. -/
inductive DiagnosisCall where
  | analyze (dbUp : Bool) (now : Nat) (req : AnalyzeRequest)
  | listHistory (dbUp : Bool) (userId : String)

/-- The response to one call and the state after it: `analyze` may call the AI collaborator
and insert a document; `listHistory` runs a query and nothing else. -/
def diagnosisStep (R : Services) (st : DiagnosisState) : DiagnosisCall → Response × DiagnosisState
  | .analyze dbUp now req => analyze R dbUp now req st
  | .listHistory dbUp userId => (listHistory R dbUp userId st.store, st)

/-- The state after a sequence of calls executed one after the other. -/
def runDiagnosis (R : Services) (st : DiagnosisState) (calls : List DiagnosisCall) :
    DiagnosisState :=
  calls.foldl (fun s call => (diagnosisStep R s call).2) st

/-- A stored String path holds a value of the request or of the parsed result: it is the
schema cast of the value, hence the value itself when that is a string. -/
def storedAs (R : Services) (value : Option JVal) (stored : Option String) : Prop :=
  castString R value = some stored ∧ ∀ s, value = some (.str s) → stored = some s

/-- The record is the one an analyze request builds at time `now`: the request has a `userId`
and `symptoms`, the AI collaborator answered the symptoms with content that parsed to a
result, and the record holds the ObjectId of the request's `userId`, the request's
`symptoms`, and the result's `disease`, `probability`, `advice` and `medicines` as
`predictedDisease`, `confidenceScore`, `advice` and `medicines`, with `date` the time of the
call. -/
def builtFrom (R : Services) (now : Nat) (req : AnalyzeRequest) (record : Diagnosis) : Prop :=
  ∃ userId symptoms aiContent result disease probability advice medicines,
    req.userId = some userId ∧ req.symptoms = some symptoms ∧
    R.groq ("Symptoms: " ++ R.toStr symptoms) = .ok aiContent ∧
    R.jsonParse aiContent = .ok result ∧
    getProp result "disease" = .ok disease ∧
    getProp result "probability" = .ok probability ∧
    getProp result "advice" = .ok advice ∧
    getProp result "medicines" = .ok medicines ∧
    record.userId.isSome = true ∧ R.castObjectId userId = record.userId ∧
    storedAs R (some symptoms) record.symptoms ∧
    storedAs R disease record.predictedDisease ∧
    storedAs R probability record.confidenceScore ∧
    storedAs R advice record.advice ∧
    storedAs R medicines record.medicines ∧
    record.date = now

/-! ## Analyze: validation, parse failure, best-effort persistence -/

theorem truthy_of_missingOrEmpty {v : JVal} (h : missingOrEmpty (some v) = true) :
    truthy v = false := by
  cases v <;> simp_all [missingOrEmpty, truthy]

/-- C1: an analyze request whose `userId` or `symptoms` is missing or empty is answered
with status 500 and body `{error: "Missing userId or symptoms"}`, and the state after the
call is the state before it: no message was sent to the AI collaborator and the Diagnosis
store is unchanged. -/
theorem analyze_missing_input (R : Services) (dbUp : Bool) (now : Nat)
    (req : AnalyzeRequest) (st : DiagnosisState)
    (h : missingOrEmpty req.userId = true ∨ missingOrEmpty req.symptoms = true) :
    (analyze R dbUp now req st).1.status = 500 ∧
    (analyze R dbUp now req st).1.body = errorBody "Missing userId or symptoms" ∧
    (analyze R dbUp now req st).2.aiCalls = st.aiCalls ∧
    (analyze R dbUp now req st).2.store = st.store := by
  obtain ⟨userId, symptoms⟩ := req
  cases userId with
  | none => simp [analyze]
  | some u =>
    cases symptoms with
    | none => simp [analyze]
    | some s =>
      have hf : (!truthy u || !truthy s) = true := by
        rcases h with h | h
        · simp [truthy_of_missingOrEmpty h]
        · simp [truthy_of_missingOrEmpty h]
      simp [analyze, hf]

theorem analyze_missing_input_witness :
    (missingOrEmpty (some (JVal.str "")) = true ∨
      missingOrEmpty (some (JVal.str "cough")) = true) ∧
    (analyze coldServices true 7 ⟨some (.str ""), some (.str "cough")⟩ emptyState).1.status
      = 500 ∧
    (analyze coldServices true 7 ⟨some (.str ""), some (.str "cough")⟩ emptyState).1.body
      = errorBody "Missing userId or symptoms" ∧
    (analyze coldServices true 7 ⟨some (.str ""), some (.str "cough")⟩ emptyState).2.aiCalls
      = emptyState.aiCalls ∧
    (analyze coldServices true 7 ⟨some (.str ""), some (.str "cough")⟩ emptyState).2.store
      = emptyState.store :=
  ⟨Or.inl rfl,
   analyze_missing_input coldServices true 7 ⟨some (.str ""), some (.str "cough")⟩ emptyState
     (Or.inl rfl)⟩

/-- The response of the handler once validation has passed, the AI collaborator has answered
and its content has parsed: status 200 and the parsed value, whatever the save did. -/
theorem analyze_parsed (R : Services) (dbUp : Bool) (now : Nat) (userId symptoms : JVal)
    (st : DiagnosisState) (aiContent : String) (result : JVal)
    (hu : truthy userId = true) (hs : truthy symptoms = true)
    (hai : R.groq ("Symptoms: " ++ R.toStr symptoms) = .ok aiContent)
    (hparse : R.jsonParse aiContent = .ok result) :
    analyze R dbUp now ⟨some userId, some symptoms⟩ st =
      (⟨200, [], .json result⟩,
       { store := match saveDiagnosis R dbUp now userId symptoms result st.store with
                  | .ok s => s
                  | .error _ => st.store,
         aiCalls := st.aiCalls ++ ["Symptoms: " ++ R.toStr symptoms] }) := by
  simp [analyze, hu, hs, hai, hparse]

/-- C2: with non-empty `userId` and `symptoms` and AI content that parses as a JSON object,
the response is status 200 with exactly the parsed object, for a store that accepts the
write and for one that rejects it alike (`dbUp` is arbitrary, and so are the schema casts):
the two responses are the same. -/
theorem analyze_returns_parsed_object (R : Services) (now : Nat) (userId symptoms : JVal)
    (st : DiagnosisState) (aiContent : String) (fields : List (String × JVal))
    (hu : truthy userId = true) (hs : truthy symptoms = true)
    (hai : R.groq ("Symptoms: " ++ R.toStr symptoms) = .ok aiContent)
    (hparse : R.jsonParse aiContent = .ok (.obj fields)) :
    (∀ dbUp : Bool, (analyze R dbUp now ⟨some userId, some symptoms⟩ st).1 =
      ⟨200, [], .json (.obj fields)⟩) ∧
    (analyze R false now ⟨some userId, some symptoms⟩ st).1 =
      (analyze R true now ⟨some userId, some symptoms⟩ st).1 := by
  have h : ∀ dbUp : Bool, (analyze R dbUp now ⟨some userId, some symptoms⟩ st).1 =
      ⟨200, [], .json (.obj fields)⟩ := by
    intro dbUp
    rw [analyze_parsed R dbUp now userId symptoms st aiContent _ hu hs hai hparse]
  exact ⟨h, by rw [h false, h true]⟩

theorem analyze_returns_parsed_object_witness :
    (analyze coldServices false 7
        ⟨some (.str "507f1f77bcf86cd799439011"), some (.str "cough and sneezing")⟩
        emptyState).1 = ⟨200, [], .json coldResult⟩ ∧
    (analyze coldServices false 7
        ⟨some (.str "507f1f77bcf86cd799439011"), some (.str "cough and sneezing")⟩
        emptyState).1 =
    (analyze coldServices true 7
        ⟨some (.str "507f1f77bcf86cd799439011"), some (.str "cough and sneezing")⟩
        emptyState).1 :=
  ⟨(analyze_returns_parsed_object coldServices 7 (.str "507f1f77bcf86cd799439011")
      (.str "cough and sneezing") emptyState coldText _ (by decide) (by decide) rfl rfl).1 false,
   (analyze_returns_parsed_object coldServices 7 (.str "507f1f77bcf86cd799439011")
      (.str "cough and sneezing") emptyState coldText _ (by decide) (by decide) rfl rfl).2⟩

/-- C3: with non-empty `userId` and `symptoms` and AI content that `JSON.parse` rejects, the
response is status 500 with body `{error: <the message of the parse error>}`, and the
Diagnosis store after the call is the store before it. -/
theorem analyze_malformed_json (R : Services) (dbUp : Bool) (now : Nat)
    (userId symptoms : JVal) (st : DiagnosisState) (aiContent msg : String)
    (hu : truthy userId = true) (hs : truthy symptoms = true)
    (hai : R.groq ("Symptoms: " ++ R.toStr symptoms) = .ok aiContent)
    (hparse : R.jsonParse aiContent = .error msg) :
    (analyze R dbUp now ⟨some userId, some symptoms⟩ st).1 = ⟨500, [], errorBody msg⟩ ∧
    (analyze R dbUp now ⟨some userId, some symptoms⟩ st).2.store = st.store := by
  simp [analyze, hu, hs, hai, hparse]

theorem analyze_malformed_json_witness :
    (analyze (stubServices "\x7bdisease:" (.error "Unexpected token d in JSON at position 1"))
        true 7 ⟨some (.str "507f1f77bcf86cd799439011"), some (.str "cough")⟩ emptyState).1
      = ⟨500, [], errorBody "Unexpected token d in JSON at position 1"⟩ ∧
    (analyze (stubServices "\x7bdisease:" (.error "Unexpected token d in JSON at position 1"))
        true 7 ⟨some (.str "507f1f77bcf86cd799439011"), some (.str "cough")⟩ emptyState).2.store
      = emptyState.store :=
  analyze_malformed_json
    (stubServices "\x7bdisease:" (.error "Unexpected token d in JSON at position 1"))
    true 7 (.str "507f1f77bcf86cd799439011") (.str "cough") emptyState "\x7bdisease:"
    "Unexpected token d in JSON at position 1" (by decide) (by decide) rfl rfl

/-! ## History: what `listHistory` returns -/

/-- The order of `.sort({ date: -1 })`: `a` may come before `b` when `a` is not older. -/
theorem sortByDateDesc_sorted (ds : List Diagnosis) :
    (sortByDateDesc ds).Sorted (fun a b => b.date ≤ a.date) := by
  haveI : IsTotal Diagnosis (fun a b => b.date ≤ a.date) := ⟨fun a b => Nat.le_total b.date a.date⟩
  haveI : IsTrans Diagnosis (fun a b => b.date ≤ a.date) :=
    ⟨fun _ _ _ hab hbc => Nat.le_trans hbc hab⟩
  exact List.sorted_insertionSort _ ds

theorem sortByDateDesc_perm (ds : List Diagnosis) : (sortByDateDesc ds).Perm ds :=
  List.perm_insertionSort _ ds

/-- A successful fetch: for a `userId` that casts to an ObjectId and a readable collection,
the handler answers 200 with the sorted matches. -/
theorem listHistory_ok (R : Services) (userId : String) (oid : ObjectId)
    (store : List Diagnosis) (hid : R.castObjectId (.str userId) = some oid) :
    listHistory R true userId store =
      ⟨200, [], .docs (sortByDateDesc (store.filter (fun d => d.userId == some oid)))⟩ := by
  simp [listHistory, Diagnosis.find, hid]

/-- A failed cast: for a `userId` that does not cast to an ObjectId the query rejects and the
handler answers 500, whatever the collection holds. -/
theorem listHistory_cast_error (R : Services) (dbUp : Bool) (userId : String)
    (store : List Diagnosis) (hid : R.castObjectId (.str userId) = none) :
    listHistory R dbUp userId store = ⟨500, [], errorBody "Failed to fetch history"⟩ := by
  simp [listHistory, Diagnosis.find, hid]

/-- C4, the claim at its own example: with the stub returning the Common Cold object and a
working store, `analyze("u1", "cough and sneezing")` does return that object, but `"u1"`
does not cast to the ObjectId the schema declares for `userId`: the save is rejected, the
store stays empty, and `listHistory("u1")` answers 500 instead of a sequence holding a record
with `predictedDisease == "Common Cold"`. -/
theorem analyze_u1_counterexample :
    (analyze coldServices true 7 ⟨some (.str "u1"), some (.str "cough and sneezing")⟩
      emptyState).1 = ⟨200, [], .json coldResult⟩ ∧
    (analyze coldServices true 7 ⟨some (.str "u1"), some (.str "cough and sneezing")⟩
      emptyState).2.store = [] ∧
    ¬ ∃ ds d,
      (listHistory coldServices true "u1"
        (analyze coldServices true 7 ⟨some (.str "u1"), some (.str "cough and sneezing")⟩
          emptyState).2.store).body = .docs ds ∧
      d ∈ ds ∧ d.predictedDisease = some "Common Cold" := by
  refine ⟨rfl, rfl, ?_⟩
  rintro ⟨ds, d, hbody, -, -⟩
  rw [listHistory_cast_error coldServices true "u1" _ rfl] at hbody
  simp [errorBody] at hbody

/-- C4, amended: for a `userId` that casts to an ObjectId, non-empty string symptoms and AI
content that parses as an object whose `disease` is a string and whose other three fields
pass the cast to `String`, with a working store, analyze answers 200 with exactly the parsed
object, and `listHistory` of the same `userId` then answers 200 with a sequence that holds
the new record: owner the cast `userId`, the request's symptoms, `predictedDisease` the
returned disease, timestamp the time of the call. -/
theorem analyze_then_history (R : Services) (now : Nat) (userId symptoms : String)
    (oid : ObjectId) (st : DiagnosisState) (aiContent : String)
    (fields : List (String × JVal)) (disease : String)
    (hu : userId ≠ "") (hs : symptoms ≠ "")
    (hid : R.castObjectId (.str userId) = some oid)
    (hai : R.groq ("Symptoms: " ++ R.toStr (.str symptoms)) = .ok aiContent)
    (hparse : R.jsonParse aiContent = .ok (.obj fields))
    (hd : fields.lookup "disease" = some (.str disease))
    (hp : castString R (fields.lookup "probability") ≠ none)
    (ha : castString R (fields.lookup "advice") ≠ none)
    (hm : castString R (fields.lookup "medicines") ≠ none) :
    (analyze R true now ⟨some (.str userId), some (.str symptoms)⟩ st).1 =
      ⟨200, [], .json (.obj fields)⟩ ∧
    ∃ ds d,
      listHistory R true userId
        (analyze R true now ⟨some (.str userId), some (.str symptoms)⟩ st).2.store =
        ⟨200, [], .docs ds⟩ ∧
      d ∈ ds ∧ d.userId = some oid ∧ d.symptoms = some symptoms ∧
      d.predictedDisease = some disease ∧ d.date = now := by
  have hu1 : truthy (.str userId) = true := by simpa [truthy] using hu
  have hs1 : truthy (.str symptoms) = true := by simpa [truthy] using hs
  obtain ⟨cs, hcs⟩ := Option.ne_none_iff_exists'.mp hp
  obtain ⟨ad, had⟩ := Option.ne_none_iff_exists'.mp ha
  obtain ⟨md, hmd⟩ := Option.ne_none_iff_exists'.mp hm
  have hsave : saveDiagnosis R true now (.str userId) (.str symptoms) (.obj fields) st.store =
      .ok (st.store ++ [{ userId := some oid, symptoms := some symptoms,
                          predictedDisease := some disease, confidenceScore := cs,
                          advice := ad, medicines := md, date := now }]) := by
    have h1 : castString R (some (.str symptoms)) = some (some symptoms) := rfl
    have h2 : castString R (some (.str disease)) = some (some disease) := rfl
    simp [saveDiagnosis, getProp, bind, Except.bind, hid, hd, hcs, had, hmd, h1, h2]
  rw [analyze_parsed R true now (.str userId) (.str symptoms) st aiContent _ hu1 hs1 hai hparse,
    hsave]
  refine ⟨rfl, _, { userId := some oid, symptoms := some symptoms,
                    predictedDisease := some disease, confidenceScore := cs,
                    advice := ad, medicines := md, date := now },
    listHistory_ok R userId oid _ hid, ?_, rfl, rfl, rfl, rfl⟩
  rw [(sortByDateDesc_perm _).mem_iff]
  simp

theorem analyze_then_history_witness :
    (analyze coldServices true 7
        ⟨some (.str "507f1f77bcf86cd799439011"), some (.str "cough and sneezing")⟩
        emptyState).1 = ⟨200, [], .json coldResult⟩ ∧
    ∃ ds d,
      listHistory coldServices true "507f1f77bcf86cd799439011"
        (analyze coldServices true 7
          ⟨some (.str "507f1f77bcf86cd799439011"), some (.str "cough and sneezing")⟩
          emptyState).2.store = ⟨200, [], .docs ds⟩ ∧
      d ∈ ds ∧ d.userId = some "507f1f77bcf86cd799439011" ∧
      d.symptoms = some "cough and sneezing" ∧
      d.predictedDisease = some "Common Cold" ∧ d.date = 7 :=
  analyze_then_history coldServices 7 "507f1f77bcf86cd799439011" "cough and sneezing"
    "507f1f77bcf86cd799439011" emptyState coldText _ "Common Cold"
    (by decide) (by decide) rfl rfl rfl rfl (by decide) (by decide) (by decide)

/-- C5, the claim at a user without records: `"u1"` is a `userId` (the spec's own example)
that does not cast to the ObjectId the schema declares, so on the empty store, which the
handler can read, `listHistory("u1")` answers status 500 with
`{error: "Failed to fetch history"}` and not a success with the empty sequence. -/
theorem listHistory_u1_counterexample :
    (∀ d ∈ ([] : List Diagnosis), d.userId ≠ some "u1") ∧
    listHistory coldServices true "u1" [] = ⟨500, [], errorBody "Failed to fetch history"⟩ ∧
    ¬ ((listHistory coldServices true "u1" []).status = 200 ∧
       (listHistory coldServices true "u1" []).body = .docs []) := by
  refine ⟨by simp, rfl, ?_⟩
  rintro ⟨hstatus, -⟩
  exact absurd hstatus (by decide)

/-- C5, amended: for every `userId` that casts to an ObjectId and every content of the
Diagnosis store, read successfully, `listHistory` answers 200 with a sequence that is a
rearrangement of exactly the records whose `userId` is that ObjectId, ordered by `date`
descending; strictly descending when the dates in it are pairwise distinct; and the empty
sequence when no record has that `userId`. -/
theorem listHistory_sorted_matches (R : Services) (userId : String) (oid : ObjectId)
    (store : List Diagnosis) (hid : R.castObjectId (.str userId) = some oid) :
    ∃ ds, listHistory R true userId store = ⟨200, [], .docs ds⟩ ∧
      ds.Perm (store.filter (fun d => d.userId == some oid)) ∧
      (∀ d, d ∈ ds ↔ d ∈ store ∧ d.userId = some oid) ∧
      ds.Sorted (fun a b => b.date ≤ a.date) ∧
      ((ds.map (fun d => d.date)).Nodup → ds.Sorted (fun a b => b.date < a.date)) ∧
      ((∀ d ∈ store, d.userId ≠ some oid) → ds = []) := by
  refine ⟨_, listHistory_ok R userId oid store hid, sortByDateDesc_perm _, ?_,
    sortByDateDesc_sorted _, ?_, ?_⟩
  · intro d
    rw [(sortByDateDesc_perm _).mem_iff]
    simp
  · intro hnodup
    have hne : (sortByDateDesc (store.filter (fun d => d.userId == some oid))).Pairwise
        (fun a b => a.date ≠ b.date) := by
      simpa [List.Nodup, List.pairwise_map] using hnodup
    exact ((sortByDateDesc_sorted _).and hne).imp
      (fun h => Nat.lt_of_le_of_ne h.1 (Ne.symm h.2))
  · intro hnone
    have hfilter : store.filter (fun d => d.userId == some oid) = [] := by
      rw [List.filter_eq_nil_iff]
      intro d hd
      simpa using hnone d hd
    rw [hfilter]
    rfl

theorem listHistory_sorted_matches_witness :
    ∃ ds, listHistory coldServices true "507f1f77bcf86cd799439011" sampleStore =
        ⟨200, [], .docs ds⟩ ∧
      ds.Perm (sampleStore.filter (fun d => d.userId == some "507f1f77bcf86cd799439011")) ∧
      (∀ d, d ∈ ds ↔ d ∈ sampleStore ∧ d.userId = some "507f1f77bcf86cd799439011") ∧
      ds.Sorted (fun a b => b.date ≤ a.date) ∧
      ((ds.map (fun d => d.date)).Nodup → ds.Sorted (fun a b => b.date < a.date)) ∧
      ((∀ d ∈ sampleStore, d.userId ≠ some "507f1f77bcf86cd799439011") → ds = []) :=
  listHistory_sorted_matches coldServices "507f1f77bcf86cd799439011"
    "507f1f77bcf86cd799439011" sampleStore rfl

/-- The history of the sample store for its first user, evaluated: the two records of that
user, the more recent first. -/
theorem listHistory_sampleStore :
    listHistory coldServices true "507f1f77bcf86cd799439011" sampleStore =
      ⟨200, [], .docs
        [⟨some "507f1f77bcf86cd799439011", some "fever", some "Flu", some "70%", none, none, 9⟩,
         ⟨some "507f1f77bcf86cd799439011", some "cough", some "Common Cold", some "85%",
          none, none, 3⟩]⟩ := by
  rfl

/-! ## Auth Service: register and login -/

/-- The lookup by email on a readable store finds a user exactly when one has that email. -/
theorem findOne_none_iff (email : String) (users : List User) :
    User.findOne true (some email) users = .ok none ↔ ∀ u ∈ users, u.email ≠ email := by
  simp [User.findOne, List.find?_eq_none]

theorem findOne_some_mem {readUp : Bool} {email : Option String} {users : List User}
    {user : User} (h : User.findOne readUp email users = .ok (some user)) :
    user ∈ users ∧ email = some user.email := by
  unfold User.findOne at h
  cases readUp with
  | false => simp at h
  | true =>
    cases email with
    | none => simp at h
    | some e =>
      simp only [if_true, Except.ok.injEq] at h
      have hmem := List.mem_of_find?_eq_some h
      have hp := List.find?_some h
      simp only [beq_iff_eq] at hp
      exact ⟨hmem, by rw [hp]⟩

/-- C6: a register request whose email is already the email of a user in the Credential
Store (read successfully) is answered with status 400 and the message
`Email already exists`, and the store after the call is the store before it. -/
theorem register_duplicate_email (C : Crypto) (writeUp : Bool) (salt : String)
    (newId : ObjectId) (req : RegisterRequest) (users : List User) (user : User)
    (hmem : user ∈ users) (hemail : req.email = some user.email) :
    register C true writeUp salt newId req users =
      (⟨400, [], .text "Email already exists"⟩, users) := by
  rw [show req = ⟨req.username, some user.email, req.password⟩ by rw [← hemail]]
  cases hfind : User.findOne true (some user.email) users with
  | error err => simp [User.findOne] at hfind
  | ok found =>
    cases found with
    | none =>
      rw [findOne_none_iff] at hfind
      exact absurd rfl (hfind user hmem)
    | some other => simp [register, hfind]

theorem register_duplicate_email_witness :
    register stubCrypto true true "s2" "64b000000000000000000002"
        ⟨some "mallory", some "alice@example.com", some "letmein"⟩ oneUser =
      (⟨400, [], .text "Email already exists"⟩, oneUser) :=
  register_duplicate_email stubCrypto true "s2" "64b000000000000000000002"
    ⟨some "mallory", some "alice@example.com", some "letmein"⟩ oneUser
    ⟨"64b000000000000000000001", "alice", "alice@example.com", "s1$hunter2"⟩
    (by simp [oneUser]) rfl

/-- What a register request does once the lookup has found no user with its email and the
new document is valid and written: one record is appended and its identifier returned. -/
theorem register_fresh (C : Crypto) (salt : String) (newId : ObjectId)
    (username email password : String) (users : List User)
    (hname : username ≠ "") (hemail : email ≠ "")
    (hfresh : ∀ u ∈ users, u.email ≠ email) :
    register C true true salt newId ⟨some username, some email, some password⟩ users =
      (⟨200, [], .json (.obj [("user", .str newId)])⟩,
       users ++ [⟨newId, username, email, C.hash password salt⟩]) := by
  have hfind := (findOne_none_iff email users).mpr hfresh
  simp [register, hfind, User.save, hname, hemail, C.hash_ne password salt]

/-- C7: for a non-empty username and email, a password, and an email that no user of the
Credential Store has, with a store that can be read and written and a verification that
accepts the password against the hash derived from it, register answers 200 with the new
user's identifier, and a login issued afterwards with the same email and password answers
200 with a token, in the body and in the `auth-token` header, together with that same
identifier and the username. -/
theorem register_then_login (C : Crypto) (salt : String) (newId : ObjectId)
    (env : Option String) (username email password : String) (users : List User)
    (hname : username ≠ "") (hemail : email ≠ "")
    (hfresh : ∀ u ∈ users, u.email ≠ email)
    (hverify : C.compare password (C.hash password salt) = true) :
    (register C true true salt newId ⟨some username, some email, some password⟩ users).1 =
      ⟨200, [], .json (.obj [("user", .str newId)])⟩ ∧
    login C true env ⟨some (.str email), some (.str password)⟩
        (register C true true salt newId ⟨some username, some email, some password⟩ users).2 =
      ⟨200, [("auth-token", C.sign newId (jwtSecret env))],
        .json (.obj [("token", .str (C.sign newId (jwtSecret env))), ("userId", .str newId),
                     ("username", .str username)])⟩ := by
  rw [register_fresh C salt newId username email password users hname hemail hfresh]
  refine ⟨rfl, ?_⟩
  have hfind : User.findOne true (some email)
      (users ++ [⟨newId, username, email, C.hash password salt⟩]) =
      .ok (some ⟨newId, username, email, C.hash password salt⟩) := by
    have hnone : users.find? (fun u => u.email == email) = none := by
      rw [List.find?_eq_none]
      intro u hu
      simpa using hfresh u hu
    simp [User.findOne, List.find?_append, hnone]
  simp [login, User.findOneQuery, hfind, hverify]

theorem register_then_login_witness :
    (register stubCrypto true true "s2" "64b000000000000000000002"
        ⟨some "bob", some "bob@example.com", some "letmein"⟩ oneUser).1 =
      ⟨200, [], .json (.obj [("user", .str "64b000000000000000000002")])⟩ ∧
    login stubCrypto true none ⟨some (.str "bob@example.com"), some (.str "letmein")⟩
        (register stubCrypto true true "s2" "64b000000000000000000002"
          ⟨some "bob", some "bob@example.com", some "letmein"⟩ oneUser).2 =
      ⟨200, [("auth-token", stubCrypto.sign "64b000000000000000000002" (jwtSecret none))],
        .json (.obj [("token", .str (stubCrypto.sign "64b000000000000000000002"
                       (jwtSecret none))),
                     ("userId", .str "64b000000000000000000002"),
                     ("username", .str "bob")])⟩ :=
  register_then_login stubCrypto "s2" "64b000000000000000000002" none "bob"
    "bob@example.com" "letmein" oneUser (by decide) (by decide) (by decide) (by decide)

/-- On an email that is a string or absent, the general query is the lookup by string. -/
theorem findOneQuery_string (C : Crypto) (readUp : Bool) (email : Option String)
    (users : List User) :
    User.findOneQuery C readUp (email.map JVal.str) users = User.findOne readUp email users := by
  cases email <;> rfl

/-- What login does when the email of the request is a string or absent: the response
carries a token only when a user of the store has that email and the password is a string
that verifies against that user's stored hash.  On a readable store, when no user has the
email the response is status 400 with `Email is not found`; when the lookup yields a user,
a string password that does not verify gives status 400 with `Invalid password`, and a
password that is not a string gives status 400 with the error bcrypt throws; none of these
carries a token. -/
theorem login_string_email (C : Crypto) (readUp : Bool) (env : Option String)
    (email : Option String) (password : Option JVal) (users : List User) :
    (issuedToken (login C readUp env ⟨email.map JVal.str, password⟩ users) = true →
      ∃ user pw, user ∈ users ∧ email = some user.email ∧
        password = some (.str pw) ∧ C.compare pw user.password = true) ∧
    (readUp = true → (∀ u ∈ users, email ≠ some u.email) →
      login C readUp env ⟨email.map JVal.str, password⟩ users =
        ⟨400, [], .text "Email is not found"⟩ ∧
      issuedToken (login C readUp env ⟨email.map JVal.str, password⟩ users) = false) ∧
    (∀ user pw, User.findOne readUp email users = .ok (some user) →
      password = some (.str pw) → C.compare pw user.password = false →
      login C readUp env ⟨email.map JVal.str, password⟩ users =
        ⟨400, [], .text "Invalid password"⟩ ∧
      issuedToken (login C readUp env ⟨email.map JVal.str, password⟩ users) = false) ∧
    (∀ user, User.findOne readUp email users = .ok (some user) →
      (∀ pw, password ≠ some (.str pw)) →
      login C readUp env ⟨email.map JVal.str, password⟩ users =
        ⟨400, [], .thrown ("Illegal arguments: " ++ typeOf password ++ ", string")⟩ ∧
      issuedToken (login C readUp env ⟨email.map JVal.str, password⟩ users) = false) := by
  have hq := findOneQuery_string C readUp email users
  have hthrown : ∀ user, User.findOne readUp email users = .ok (some user) →
      (∀ pw, password ≠ some (.str pw)) →
      login C readUp env ⟨email.map JVal.str, password⟩ users =
        ⟨400, [], .thrown ("Illegal arguments: " ++ typeOf password ++ ", string")⟩ := by
    intro user hfind hpw
    cases password with
    | none => simp [login, hq, hfind]
    | some v =>
      cases v with
      | str pw => exact absurd rfl (hpw pw)
      | null => simp [login, hq, hfind]
      | bool b => simp [login, hq, hfind]
      | num n => simp [login, hq, hfind]
      | arr items => simp [login, hq, hfind]
      | obj fields => simp [login, hq, hfind]
  refine ⟨?_, ?_, ?_, ?_⟩
  · intro htoken
    cases hfind : User.findOne readUp email users with
    | error err => simp [login, hq, hfind, issuedToken, bodyToken] at htoken
    | ok found =>
      cases found with
      | none => simp [login, hq, hfind, issuedToken, bodyToken] at htoken
      | some user =>
        obtain ⟨hmem, hemail⟩ := findOne_some_mem hfind
        by_cases hpw : ∃ pw, password = some (.str pw)
        · obtain ⟨pw, hpw⟩ := hpw
          cases hcmp : C.compare pw user.password with
          | false => simp [login, hq, hfind, hpw, hcmp, issuedToken, bodyToken] at htoken
          | true => exact ⟨user, pw, hmem, hemail, hpw, hcmp⟩
        · have hno : ∀ pw, password ≠ some (.str pw) := fun pw h => hpw ⟨pw, h⟩
          rw [hthrown user hfind hno] at htoken
          simp [issuedToken, bodyToken] at htoken
  · intro hread hnone
    subst hread
    have hfind : User.findOne true email users = .ok none := by
      cases email with
      | none => simp [User.findOne]
      | some e =>
        rw [findOne_none_iff]
        intro u hu heq
        exact hnone u hu (by rw [heq])
    simp [login, hq, hfind, issuedToken, bodyToken]
  · intro user pw hfind hpw hcmp
    simp [login, hq, hfind, hpw, hcmp, issuedToken, bodyToken]
  · intro user hfind hpw
    rw [hthrown user hfind hpw]
    exact ⟨rfl, by simp [issuedToken, bodyToken]⟩

/-- What login does when the email of the request is an array, a number, a boolean or an
object that the query engine accepts: the first user whose email passes the filter is taken
for the user of the request, and with that user's password a token is issued, whether or not
any user has the given value as email. -/
theorem login_filter_email (C : Crypto) (env : Option String) (email : JVal) (pw : String)
    (users : List User) (passes : String → Bool) (user : User)
    (hnull : email ≠ .null) (hstr : ∀ e, email ≠ .str e)
    (hfilter : C.emailFilter email = some passes)
    (hfirst : users.find? (fun u => passes u.email) = some user)
    (hverify : C.compare pw user.password = true) :
    login C true env ⟨some email, some (.str pw)⟩ users =
      ⟨200, [("auth-token", C.sign user._id (jwtSecret env))],
        .json (.obj [("token", .str (C.sign user._id (jwtSecret env))),
                     ("userId", .str user._id), ("username", .str user.username)])⟩ := by
  cases email with
  | null => exact absurd rfl hnull
  | str e => exact absurd rfl (hstr e)
  | bool b => simp [login, User.findOneQuery, hfilter, hfirst, hverify]
  | num n => simp [login, User.findOneQuery, hfilter, hfirst, hverify]
  | arr items => simp [login, User.findOneQuery, hfilter, hfirst, hverify]
  | obj fields => simp [login, User.findOneQuery, hfilter, hfirst, hverify]

/-- Login with the right email and a wrong password on the sample store, evaluated. -/
theorem login_string_email_sample :
    login stubCrypto true none ⟨some (.str "alice@example.com"), some (.str "hunter3")⟩
        oneUser = ⟨400, [], .text "Invalid password"⟩ ∧
    issuedToken (login stubCrypto true none
      ⟨some (.str "alice@example.com"), some (.str "hunter3")⟩ oneUser) = false :=
  (login_string_email stubCrypto true none (some "alice@example.com")
      (some (.str "hunter3")) oneUser).2.2.1
    ⟨"64b000000000000000000001", "alice", "alice@example.com", "s1$hunter2"⟩ "hunter3"
    rfl rfl rfl

/-- C8, at a request the handler can receive: the body
`{"email": {"$ne": null}, "password": "hunter2"}` on a store whose one user is alice, with
password `hunter2`.  No user has the given email, which is not even a string, yet the value
goes unchecked into `User.findOne`, the operator matches alice, her password verifies, and
the handler answers 200 with a token for alice in the body and in the `auth-token` header,
where the claim has status 400 with `Email is not found` and no token. -/
theorem login_operator_email_issues_token :
    (∀ u ∈ oneUser, JVal.str u.email ≠ JVal.obj [("$ne", .null)]) ∧
    login stubCrypto true none ⟨some (.obj [("$ne", .null)]), some (.str "hunter2")⟩ oneUser =
      ⟨200, [("auth-token", "jwt.64b000000000000000000001.SecretKey")],
        .json (.obj [("token", .str "jwt.64b000000000000000000001.SecretKey"),
                     ("userId", .str "64b000000000000000000001"),
                     ("username", .str "alice")])⟩ ∧
    issuedToken (login stubCrypto true none
      ⟨some (.obj [("$ne", .null)]), some (.str "hunter2")⟩ oneUser) = true := by
  refine ⟨?_, rfl, rfl⟩
  intro u _ h
  cases h

/-- C9, the claim at an object that lacks three of the four keys: with non-empty `userId` and
`symptoms` and AI content `{"disease":"Flu"}`, which is valid JSON without `probability`,
`advice` and `medicines`, the handler answers status 200 with that object, not status
500. -/
theorem analyze_missing_keys_counterexample :
    List.lookup "probability" [("disease", JVal.str "Flu")] = none ∧
    (analyze (stubServices "\x7b\"disease\":\"Flu\"\x7d" (.ok (.obj [("disease", .str "Flu")])))
        true 7 ⟨some (.str "507f1f77bcf86cd799439011"), some (.str "cough")⟩ emptyState).1
      = ⟨200, [], .json (.obj [("disease", .str "Flu")])⟩ ∧
    ¬ (analyze (stubServices "\x7b\"disease\":\"Flu\"\x7d"
          (.ok (.obj [("disease", .str "Flu")])))
        true 7 ⟨some (.str "507f1f77bcf86cd799439011"), some (.str "cough")⟩
        emptyState).1.status = 500 := by
  refine ⟨rfl, rfl, ?_⟩
  decide

/-- C9, amended: with non-empty `userId` and `symptoms` and AI content that is valid JSON,
of whatever shape, the handler does not fail: it answers status 200 with the parsed value as
it is.  The handler makes no check of the keys; only content that `JSON.parse` rejects
yields the failure response. -/
theorem analyze_any_shape_succeeds (R : Services) (dbUp : Bool) (now : Nat)
    (userId symptoms : JVal) (st : DiagnosisState) (aiContent : String) (result : JVal)
    (hu : truthy userId = true) (hs : truthy symptoms = true)
    (hai : R.groq ("Symptoms: " ++ R.toStr symptoms) = .ok aiContent)
    (hparse : R.jsonParse aiContent = .ok result) :
    (analyze R dbUp now ⟨some userId, some symptoms⟩ st).1.status = 200 ∧
    (analyze R dbUp now ⟨some userId, some symptoms⟩ st).1.body = .json result := by
  rw [analyze_parsed R dbUp now userId symptoms st aiContent result hu hs hai hparse]
  exact ⟨rfl, rfl⟩

theorem analyze_any_shape_succeeds_witness :
    (analyze (stubServices "[1]" (.ok (.arr [.num ⟨false, "1"⟩]))) true 7
        ⟨some (.str "507f1f77bcf86cd799439011"), some (.str "cough")⟩ emptyState).1.status
      = 200 ∧
    (analyze (stubServices "[1]" (.ok (.arr [.num ⟨false, "1"⟩]))) true 7
        ⟨some (.str "507f1f77bcf86cd799439011"), some (.str "cough")⟩ emptyState).1.body
      = .json (.arr [.num ⟨false, "1"⟩]) :=
  analyze_any_shape_succeeds (stubServices "[1]" (.ok (.arr [.num ⟨false, "1"⟩]))) true 7
    (.str "507f1f77bcf86cd799439011") (.str "cough") emptyState "[1]" _
    (by decide) (by decide) rfl rfl

/-! ## Email uniqueness -/

theorem save_ok_appends {writeUp : Bool} {newId : ObjectId} {username email : Option String}
    {password : String} {users users1 : List User} {user : User}
    (h : User.save writeUp newId username email password users = .ok (user, users1)) :
    users1 = users ++ [user] ∧ email = some user.email := by
  unfold User.save at h
  cases username with
  | none => simp at h
  | some n =>
    cases email with
    | none => simp at h
    | some e =>
      simp only at h
      split at h
      · split at h
        · simp only [Except.ok.injEq, Prod.mk.injEq] at h
          obtain ⟨hu, hus⟩ := h
          subst hu
          exact ⟨hus.symm, rfl⟩
        · simp at h
      · simp at h

/-- One register call keeps the emails of the store pairwise distinct. -/
theorem register_uniqueEmails (C : Crypto) (readUp writeUp : Bool) (salt : String)
    (newId : ObjectId) (req : RegisterRequest) (users : List User)
    (h : uniqueEmails users) :
    uniqueEmails (register C readUp writeUp salt newId req users).2 := by
  cases hfind : User.findOne readUp req.email users with
  | error err => simpa [register, hfind] using h
  | ok found =>
    cases found with
    | some other => simpa [register, hfind] using h
    | none =>
      cases hpw : req.password with
      | none => simpa [register, hfind, hpw] using h
      | some password =>
        cases hsave : User.save writeUp newId req.username req.email
            (C.hash password salt) users with
        | error err => simpa [register, hfind, hpw, hsave] using h
        | ok saved =>
          obtain ⟨user, users1⟩ := saved
          obtain ⟨hus, hemail⟩ := save_ok_appends hsave
          have hread : readUp = true := by
            cases readUp with
            | true => rfl
            | false => simp [User.findOne] at hfind
          subst hread
          have hres : (register C true writeUp salt newId req users).2 = users ++ [user] := by
            simp [register, hfind, hpw, hsave, hus]
          rw [hemail, findOne_none_iff] at hfind
          rw [hres]
          unfold uniqueEmails at h ⊢
          rw [List.pairwise_append]
          refine ⟨h, List.pairwise_singleton _ _, ?_⟩
          intro a ha b hb
          rw [List.mem_singleton] at hb
          rw [hb]
          exact hfind a ha

/-- C10: starting from a Credential Store in which no two users share an email, after any
finite sequence of register and login calls executed one after the other, with arbitrary
requests and arbitrary behaviour of the store and of the libraries, no two user records of
the store have the same email. -/
theorem runAuth_uniqueEmails (C : Crypto) (calls : List AuthCall) (users : List User)
    (h : uniqueEmails users) : uniqueEmails (runAuth C users calls) := by
  induction calls generalizing users with
  | nil => exact h
  | cons call rest ih =>
    have hstep : uniqueEmails (authStep C users call) := by
      cases call with
      | register readUp writeUp salt newId req =>
        exact register_uniqueEmails C readUp writeUp salt newId req users h
      | login readUp env req => exact h
    exact ih (authStep C users call) hstep

theorem runAuth_uniqueEmails_witness :
    uniqueEmails oneUser ∧
    uniqueEmails (runAuth stubCrypto oneUser
      [.register true true "s2" "64b000000000000000000002"
         ⟨some "mallory", some "alice@example.com", some "letmein"⟩,
       .register true true "s3" "64b000000000000000000003"
         ⟨some "bob", some "bob@example.com", some "letmein"⟩,
       .login true none ⟨some (.str "bob@example.com"), some (.str "letmein")⟩,
       .register true true "s4" "64b000000000000000000004"
         ⟨some "bobby", some "bob@example.com", some "other"⟩]) :=
  ⟨by decide, runAuth_uniqueEmails stubCrypto _ oneUser (by decide)⟩

/-- The store after the sample sequence of calls: the two registrations of an email already
present added nothing. -/
theorem runAuth_sample :
    runAuth stubCrypto oneUser
      [.register true true "s2" "64b000000000000000000002"
         ⟨some "mallory", some "alice@example.com", some "letmein"⟩,
       .register true true "s3" "64b000000000000000000003"
         ⟨some "bob", some "bob@example.com", some "letmein"⟩,
       .login true none ⟨some (.str "bob@example.com"), some (.str "letmein")⟩,
       .register true true "s4" "64b000000000000000000004"
         ⟨some "bobby", some "bob@example.com", some "other"⟩] =
      [⟨"64b000000000000000000001", "alice", "alice@example.com", "s1$hunter2"⟩,
       ⟨"64b000000000000000000003", "bob", "bob@example.com", "s3$letmein"⟩] := by
  rfl

/-! ## Register: required fields -/

/-- C11, the claim at an empty password: with username `bob`, an email that no user has and
the password `""`, on a working store, the handler hashes the empty string like any other
password, the new document passes validation (its password path holds the hash), and the
response is status 200 with one user record created, not a 400. -/
theorem register_empty_password_counterexample :
    (register stubCrypto true true "s2" "64b000000000000000000002"
        ⟨some "bob", some "bob@example.com", some ""⟩ oneUser).1.status = 200 ∧
    (register stubCrypto true true "s2" "64b000000000000000000002"
        ⟨some "bob", some "bob@example.com", some ""⟩ oneUser).2 =
      oneUser ++ [⟨"64b000000000000000000002", "bob", "bob@example.com", "s2$"⟩] ∧
    ¬ ((register stubCrypto true true "s2" "64b000000000000000000002"
          ⟨some "bob", some "bob@example.com", some ""⟩ oneUser).1.status = 400 ∧
       (register stubCrypto true true "s2" "64b000000000000000000002"
          ⟨some "bob", some "bob@example.com", some ""⟩ oneUser).2 = oneUser) := by
  refine ⟨rfl, rfl, ?_⟩
  rintro ⟨hstatus, -⟩
  exact absurd hstatus (by decide)

/-- C11, amended: a register request whose email is absent or the empty string, or whose
password is absent, or whose username is absent, is answered with status 400 and creates no
user record, whatever the store holds and whether or not it can be read or written.  (An
empty-string password is not among these: it is hashed and the user is created.) -/
theorem register_missing_field (C : Crypto) (readUp writeUp : Bool) (salt : String)
    (newId : ObjectId) (req : RegisterRequest) (users : List User)
    (h : req.email = none ∨ req.email = some "" ∨ req.password = none ∨
      req.username = none) :
    (register C readUp writeUp salt newId req users).1.status = 400 ∧
    (register C readUp writeUp salt newId req users).2 = users := by
  cases hfind : User.findOne readUp req.email users with
  | error err => simp [register, hfind]
  | ok found =>
    cases found with
    | some other => simp [register, hfind]
    | none =>
      cases hpw : req.password with
      | none => simp [register, hfind, hpw]
      | some password =>
        have hsave : ∃ err, User.save writeUp newId req.username req.email
            (C.hash password salt) users = .error err := by
          rcases h with h | h | h | h
          · rw [h]; cases req.username <;> exact ⟨_, rfl⟩
          · rw [h]
            cases req.username with
            | none => exact ⟨_, rfl⟩
            | some n => exact ⟨"User validation failed", by simp [User.save]⟩
          · rw [hpw] at h; cases h
          · rw [h]; exact ⟨_, rfl⟩
        obtain ⟨err, herr⟩ := hsave
        simp [register, hfind, hpw, herr]

theorem register_missing_field_witness :
    (register stubCrypto true true "s2" "64b000000000000000000002"
        ⟨some "bob", some "", some "letmein"⟩ oneUser).1.status = 400 ∧
    (register stubCrypto true true "s2" "64b000000000000000000002"
        ⟨some "bob", some "", some "letmein"⟩ oneUser).2 = oneUser :=
  register_missing_field stubCrypto true true "s2" "64b000000000000000000002"
    ⟨some "bob", some "", some "letmein"⟩ oneUser (Or.inr (Or.inl rfl))

/-! ## Analyze: a `null` result, and the frame of the Diagnosis store -/

/-- C13: with non-empty `userId` and `symptoms` and AI content that parses to the JSON value
`null`, building the Diagnosis record raises in the persistence block (the read of
`result.disease` on `null`), the error is swallowed there, the Diagnosis store is unchanged,
and the handler answers status 200 with body `null`, not a 500. -/
theorem analyze_null_result (R : Services) (dbUp : Bool) (now : Nat)
    (userId symptoms : JVal) (st : DiagnosisState) (aiContent : String)
    (hu : truthy userId = true) (hs : truthy symptoms = true)
    (hai : R.groq ("Symptoms: " ++ R.toStr symptoms) = .ok aiContent)
    (hparse : R.jsonParse aiContent = .ok .null) :
    (∃ msg, getProp .null "disease" = .error msg ∧
      saveDiagnosis R dbUp now userId symptoms .null st.store = .error msg) ∧
    (analyze R dbUp now ⟨some userId, some symptoms⟩ st).1 = ⟨200, [], .json .null⟩ ∧
    (analyze R dbUp now ⟨some userId, some symptoms⟩ st).2.store = st.store := by
  have hsave : saveDiagnosis R dbUp now userId symptoms .null st.store =
      .error ("Cannot read properties of null (reading " ++ "disease" ++ ")") := rfl
  rw [analyze_parsed R dbUp now userId symptoms st aiContent .null hu hs hai hparse, hsave]
  exact ⟨⟨_, rfl, rfl⟩, rfl, rfl⟩

theorem analyze_null_result_witness :
    (∃ msg, getProp .null "disease" = .error msg ∧
      saveDiagnosis (stubServices "null" (.ok .null)) true 7
        (.str "507f1f77bcf86cd799439011") (.str "cough") .null sampleStore = .error msg) ∧
    (analyze (stubServices "null" (.ok .null)) true 7
        ⟨some (.str "507f1f77bcf86cd799439011"), some (.str "cough")⟩
        ⟨sampleStore, []⟩).1 = ⟨200, [], .json .null⟩ ∧
    (analyze (stubServices "null" (.ok .null)) true 7
        ⟨some (.str "507f1f77bcf86cd799439011"), some (.str "cough")⟩
        ⟨sampleStore, []⟩).2.store = sampleStore :=
  analyze_null_result (stubServices "null" (.ok .null)) true 7
    (.str "507f1f77bcf86cd799439011") (.str "cough") ⟨sampleStore, []⟩ "null"
    (by decide) (by decide) rfl rfl

theorem storedAs_of_cast {R : Services} {value : Option JVal} {stored : Option String}
    (h : castString R value = some stored) : storedAs R value stored := by
  refine ⟨h, ?_⟩
  intro s hs
  subst hs
  simpa [castString] using h.symm

/-- A save that succeeds has read the four properties and appended exactly one record, made
of the casts of the request's and the result's values. -/
theorem saveDiagnosis_ok {R : Services} {dbUp : Bool} {now : Nat}
    {userId symptoms result : JVal} {store store1 : List Diagnosis}
    (h : saveDiagnosis R dbUp now userId symptoms result store = .ok store1) :
    ∃ disease probability advice medicines record,
      getProp result "disease" = .ok disease ∧
      getProp result "probability" = .ok probability ∧
      getProp result "advice" = .ok advice ∧
      getProp result "medicines" = .ok medicines ∧
      store1 = store ++ [record] ∧
      record.userId.isSome = true ∧ R.castObjectId userId = record.userId ∧
      storedAs R (some symptoms) record.symptoms ∧
      storedAs R disease record.predictedDisease ∧
      storedAs R probability record.confidenceScore ∧
      storedAs R advice record.advice ∧
      storedAs R medicines record.medicines ∧
      record.date = now := by
  unfold saveDiagnosis at h
  cases h1 : getProp result "disease" with
  | error e => simp [h1, bind, Except.bind] at h
  | ok disease =>
  cases h2 : getProp result "probability" with
  | error e => simp [h1, h2, bind, Except.bind] at h
  | ok probability =>
  cases h3 : getProp result "advice" with
  | error e => simp [h1, h2, h3, bind, Except.bind] at h
  | ok advice =>
  cases h4 : getProp result "medicines" with
  | error e => simp [h1, h2, h3, h4, bind, Except.bind] at h
  | ok medicines =>
  simp only [h1, h2, h3, h4, bind, Except.bind] at h
  cases c0 : R.castObjectId userId with
  | none => simp [c0] at h
  | some uid =>
  cases c1 : castString R (some symptoms) with
  | none => simp [c0, c1] at h
  | some sy =>
  cases c2 : castString R disease with
  | none => simp [c0, c1, c2] at h
  | some pd =>
  cases c3 : castString R probability with
  | none => simp [c0, c1, c2, c3] at h
  | some cs =>
  cases c4 : castString R advice with
  | none => simp [c0, c1, c2, c3, c4] at h
  | some ad =>
  cases c5 : castString R medicines with
  | none => simp [c0, c1, c2, c3, c4, c5] at h
  | some md =>
  cases dbUp with
  | false => simp [c0, c1, c2, c3, c4, c5] at h
  | true =>
    simp only [c0, c1, c2, c3, c4, c5, if_true, Except.ok.injEq] at h
    exact ⟨disease, probability, advice, medicines, _, rfl, rfl, rfl, rfl, h.symm, rfl, rfl,
      storedAs_of_cast c1, storedAs_of_cast c2, storedAs_of_cast c3, storedAs_of_cast c4,
      storedAs_of_cast c5, rfl⟩

/-- One analyze call leaves the Diagnosis store as it was or appends the one record built
from the request and the parsed result. -/
theorem analyze_store (R : Services) (dbUp : Bool) (now : Nat) (req : AnalyzeRequest)
    (st : DiagnosisState) :
    (analyze R dbUp now req st).2.store = st.store ∨
    ∃ record, (analyze R dbUp now req st).2.store = st.store ++ [record] ∧
      builtFrom R now req record := by
  obtain ⟨userId, symptoms⟩ := req
  cases userId with
  | none => left; simp [analyze]
  | some u =>
  cases symptoms with
  | none => left; simp [analyze]
  | some s =>
  cases hu : truthy u with
  | false => left; simp [analyze, hu]
  | true =>
  cases hs : truthy s with
  | false => left; simp [analyze, hu, hs]
  | true =>
  cases hai : R.groq ("Symptoms: " ++ R.toStr s) with
  | error e => left; simp [analyze, hu, hs, hai]
  | ok aiContent =>
  cases hparse : R.jsonParse aiContent with
  | error e => left; simp [analyze, hu, hs, hai, hparse]
  | ok result =>
  rw [analyze_parsed R dbUp now u s st aiContent result hu hs hai hparse]
  cases hsave : saveDiagnosis R dbUp now u s result st.store with
  | error e => left; rfl
  | ok store1 =>
    right
    obtain ⟨disease, probability, advice, medicines, record, h1, h2, h3, h4, hstore, hsome,
      hid, hsy, hpd, hcs, had, hmd, hdate⟩ := saveDiagnosis_ok hsave
    exact ⟨record, hstore, u, s, aiContent, result, disease, probability, advice, medicines,
      rfl, rfl, hai, hparse, h1, h2, h3, h4, hsome, hid, hsy, hpd, hcs, had, hmd, hdate⟩

/-- One call of the Diagnosis Service keeps every record of the store, in place, and adds at
most one. -/
theorem diagnosisStep_extends (R : Services) (st : DiagnosisState) (call : DiagnosisCall) :
    ∃ added, (diagnosisStep R st call).2.store = st.store ++ added ∧ added.length ≤ 1 := by
  cases call with
  | analyze dbUp now req =>
    rcases analyze_store R dbUp now req st with h | ⟨record, h, -⟩
    · exact ⟨[], by simpa [diagnosisStep] using h, by simp⟩
    · exact ⟨[record], by simpa [diagnosisStep] using h, by simp⟩
  | listHistory dbUp userId => exact ⟨[], by simp [diagnosisStep], by simp⟩

theorem runDiagnosis_extends (R : Services) (calls : List DiagnosisCall)
    (st : DiagnosisState) :
    ∃ added, (runDiagnosis R st calls).store = st.store ++ added ∧
      added.length ≤ calls.length := by
  induction calls generalizing st with
  | nil => exact ⟨[], by simp [runDiagnosis], by simp⟩
  | cons call rest ih =>
    obtain ⟨first, hfirst, hlen1⟩ := diagnosisStep_extends R st call
    obtain ⟨more, hmore, hlen2⟩ := ih (diagnosisStep R st call).2
    refine ⟨first ++ more, ?_, ?_⟩
    · have hrun : runDiagnosis R st (call :: rest) =
          runDiagnosis R (diagnosisStep R st call).2 rest := rfl
      rw [hrun, hmore, hfirst, List.append_assoc]
    · simp only [List.length_append, List.length_cons]
      omega

/-- C12: for every analyze request and every initial Diagnosis store, the store after the
call is the store before it, or the store before it followed by exactly one new record, and
that record holds the request's `userId` (as the ObjectId it casts to) and `symptoms` and the
parsed result's `disease`, `probability`, `advice` and `medicines` as `predictedDisease`,
`confidenceScore`, `advice` and `medicines`.  `listHistory` leaves the state as it was, and
after any sequence of analyze and listHistory calls every record of the initial store is
still there, unmodified and in place. -/
theorem analyze_store_frame (R : Services) (st : DiagnosisState) :
    (∀ (dbUp : Bool) (now : Nat) (req : AnalyzeRequest),
      (analyze R dbUp now req st).2.store = st.store ∨
      ∃ record, (analyze R dbUp now req st).2.store = st.store ++ [record] ∧
        builtFrom R now req record) ∧
    (∀ (dbUp : Bool) (userId : String),
      (diagnosisStep R st (.listHistory dbUp userId)).2 = st) ∧
    (∀ calls : List DiagnosisCall,
      ∃ added, (runDiagnosis R st calls).store = st.store ++ added ∧
        added.length ≤ calls.length) :=
  ⟨fun dbUp now req => analyze_store R dbUp now req st, fun _ _ => rfl,
   fun calls => runDiagnosis_extends R calls st⟩

theorem analyze_store_frame_witness :
    ((analyze coldServices true 7
        ⟨some (.str "507f1f77bcf86cd799439011"), some (.str "cough and sneezing")⟩
        ⟨sampleStore, []⟩).2.store = sampleStore ∨
      ∃ record, (analyze coldServices true 7
          ⟨some (.str "507f1f77bcf86cd799439011"), some (.str "cough and sneezing")⟩
          ⟨sampleStore, []⟩).2.store = sampleStore ++ [record] ∧
        builtFrom coldServices 7
          ⟨some (.str "507f1f77bcf86cd799439011"), some (.str "cough and sneezing")⟩
          record) ∧
    (diagnosisStep coldServices ⟨sampleStore, []⟩
      (.listHistory true "507f1f77bcf86cd799439011")).2.store = sampleStore :=
  ⟨(analyze_store_frame coldServices ⟨sampleStore, []⟩).1 true 7
      ⟨some (.str "507f1f77bcf86cd799439011"), some (.str "cough and sneezing")⟩,
   congrArg DiagnosisState.store
     ((analyze_store_frame coldServices ⟨sampleStore, []⟩).2.1 true
       "507f1f77bcf86cd799439011")⟩

/-- The store after a successful analyze on the sample store, evaluated: the three records
it held, then the new one. -/
theorem analyze_store_sample :
    (analyze coldServices true 7
        ⟨some (.str "507f1f77bcf86cd799439011"), some (.str "cough and sneezing")⟩
        ⟨sampleStore, []⟩).2.store =
      sampleStore ++ [⟨some "507f1f77bcf86cd799439011", some "cough and sneezing",
        some "Common Cold", some "85%", some "Rest and hydrate",
        some "Paracetamol, Cetirizine", 7⟩] := by
  rfl

end MedDiagnosis
